import Mathlib

/-!
Verification of the plum_ecomax Home Assistant integration core:
the subscription/dispatch pipeline of the entity base class, the
config-flow discovery state machine, setup/alert error handling and
the meter entity commands.

Device values and timestamps are modelled as rationals, the device
state as an association list, and the asynchronous steps of the config
flow as pure functions over an explicit flow-state record, with the
external device's responses passed in as parameters.
-/

namespace PlumEcomax

/-! ### Device-state object -/

/-- Lookup of an attribute key in the device-state data mapping. -/
def lookupKey : List (String × ℚ) → String → Option ℚ
  | [], _ => none
  | (k, v) :: rest, key => if k = key then some v else lookupKey rest key

/-- Update of an attribute key in the device-state data mapping. -/
def setKey : List (String × ℚ) → String → ℚ → List (String × ℚ)
  | [], key, v => [(key, v)]
  | (k, w) :: rest, key, v =>
      if k = key then (k, v) :: rest else (k, w) :: setKey rest key v

/-- Callback identities for one entity, as registered with the device.
`update` is the entity's raw `async_update` bound method, `filtered` is
`func = self.entity_description.filter_fn(self.async_update)` (a distinct
object), and `setAvailable` is the local `async_set_available` closure. -/
inductive Cb where
  | update
  | filtered
  | setAvailable
deriving DecidableEq, Repr

/-- Whether a callback is the availability callback. -/
def Cb.isSetAvailable : Cb → Bool
  | .setAvailable => true
  | _ => false

/-- One registered subscription: key, callback identity, one-shot flag. -/
structure Subscription where
  key : String
  cb : Cb
  once : Bool
deriving DecidableEq, Repr

/-- The device-state object: current data plus the ordered subscriber list. -/
structure Device where
  data : List (String × ℚ)
  subs : List Subscription
deriving DecidableEq, Repr

/-- Modelled from the spec: pyplumio `Device.subscribe(key, callback)`
(external collaborator) registers a persistent callback against a key,
in registration order. -/
def Device.subscribe (d : Device) (k : String) (cb : Cb) : Device :=
  { d with subs := d.subs ++ [⟨k, cb, false⟩] }

/-- Modelled from the spec: pyplumio `Device.subscribe_once(key, callback)`
(external collaborator) registers a one-shot callback, removed after its
first invocation. -/
def Device.subscribe_once (d : Device) (k : String) (cb : Cb) : Device :=
  { d with subs := d.subs ++ [⟨k, cb, true⟩] }

/-- Modelled from the spec: pyplumio `Device.unsubscribe(key, callback)`
(external collaborator) removes a previously registered callback,
identified by key and callback identity; no-op if not present. -/
def Device.unsubscribe (d : Device) (k : String) (cb : Cb) : Device :=
  { d with subs := d.subs.filter fun s => !(decide (s.key = k) && decide (s.cb = cb)) }

/-! ### Entity state and callback semantics

The entity model is parametric in the filter chain: a filter is a state
transformer `FS → ℚ → ℚ → FS × Option ℚ` taking the filter state, the
current time and the incoming value, and returning the new filter state
plus the value forwarded downstream (none = suppressed). `g` is the
entity description's `value_fn`. -/

/-- State of one UI entity plus instrumentation logs: `funcCalls` records
every value delivered to the filter-wrapped callback, `updateCalls` every
value that reached `async_update` downstream of the filter. -/
structure EntityState (FS : Type) where
  attrAvailable : Bool
  native_value : Option ℚ
  fs : FS
  funcCalls : List ℚ
  updateCalls : List ℚ
deriving DecidableEq, Repr

/-- Fresh entity state as built by `EcomaxSensor.__init__`:
`_attr_available = False`, `_attr_native_value = None`. -/
def entityInit {FS : Type} (fs0 : FS) : EntityState FS :=
  { attrAvailable := false, native_value := none, fs := fs0
    funcCalls := [], updateCalls := [] }

/-- Invoke one callback with a value. `setAvailable` sets the availability
flag (`async_set_available`), `update` is the raw `async_update` of
`EcomaxSensor` (sets the native value through `value_fn`), `filtered` runs
the filter chain and, when the filter forwards, invokes `async_update`
with the forwarded value. -/
def invoke {FS : Type} (φ : FS → ℚ → ℚ → FS × Option ℚ) (g : ℚ → ℚ)
    (cb : Cb) (now v : ℚ) (e : EntityState FS) : EntityState FS :=
  match cb with
  | .setAvailable => { e with attrAvailable := true }
  | .update =>
      { e with updateCalls := e.updateCalls ++ [v], native_value := some (g v) }
  | .filtered =>
      let r := φ e.fs now v
      let e1 := { e with funcCalls := e.funcCalls ++ [v], fs := r.1 }
      match r.2 with
      | none => e1
      | some w =>
          { e1 with updateCalls := e1.updateCalls ++ [w], native_value := some (g w) }

/-- One step of the dispatch fan-out fold: a subscriber whose key matches
is invoked; one-shot subscribers are removed after invocation, all others
are kept in order. -/
def dispatchStep {FS : Type} (φ : FS → ℚ → ℚ → FS × Option ℚ) (g : ℚ → ℚ)
    (k : String) (now v : ℚ)
    (acc : List Subscription × EntityState FS) (s : Subscription) :
    List Subscription × EntityState FS :=
  if s.key = k then
    let e' := invoke φ g s.cb now v acc.2
    if s.once then (acc.1, e') else (acc.1 ++ [s], e')
  else (acc.1 ++ [s], acc.2)

/-- Modelled from the spec: pyplumio dispatch (external collaborator) —
on an attribute mutation the data mapping is updated and every subscriber
registered for the key is invoked in registration order; a one-shot
subscriber is removed immediately after its first invocation. -/
def Device.dispatch {FS : Type} (φ : FS → ℚ → ℚ → FS × Option ℚ) (g : ℚ → ℚ)
    (d : Device) (now : ℚ) (k : String) (v : ℚ) (e : EntityState FS) :
    Device × EntityState FS :=
  let r := d.subs.foldl (dispatchStep φ g k now v) ([], e)
  (⟨setKey d.data k v, r.1⟩, r.2)

/-- Run a sequence of dispatched events, each a (time, key, value) triple. -/
def runEvents {FS : Type} (φ : FS → ℚ → ℚ → FS × Option ℚ) (g : ℚ → ℚ) :
    List (ℚ × String × ℚ) → Device → EntityState FS → Device × EntityState FS
  | [], d, e => (d, e)
  | ev :: rest, d, e =>
      let r := Device.dispatch φ g d ev.1 ev.2.1 ev.2.2 e
      runEvents φ g rest r.1 r.2

/-! ### Entity lifecycle (`entity.py`) -/

/-- `EcomaxEntity.async_added_to_hass`: subscribe the one-shot availability
callback and the filter-wrapped update callback for the entity's key, then,
if the device data already holds a value for the key, call
`async_set_available()` and feed that value to the wrapped callback. -/
def async_added_to_hass {FS : Type} (φ : FS → ℚ → ℚ → FS × Option ℚ) (g : ℚ → ℚ)
    (key : String) (d : Device) (e : EntityState FS) : Device × EntityState FS :=
  let d1 := (d.subscribe_once key .setAvailable).subscribe key .filtered
  match lookupKey d1.data key with
  | none => (d1, e)
  | some v =>
      let e1 := invoke φ g .setAvailable 0 0 e
      let e2 := invoke φ g .filtered 0 v e1
      (d1, e2)

/-- `EcomaxEntity.async_will_remove_from_hass`: unsubscribes
`self.async_update` — the raw bound method, not the registered
filter-wrapped callback. -/
def async_will_remove_from_hass (key : String) (d : Device) : Device :=
  d.unsubscribe key .update

/-- `EcomaxEntity.available`: the connection's connected event is set and
the availability flag has been raised. -/
def available {FS : Type} (connected : Bool) (e : EntityState FS) : Bool :=
  connected && e.attrAvailable

/-! ### A concrete filter chain -/

/-- Filter state of `throttle(on_change(x), seconds=T)`: last value seen
by `on_change` and last time `throttle` let a call through. -/
structure ThrottleState where
  lastValue : Option ℚ
  lastCallTime : Option ℚ
deriving DecidableEq, Repr

/-- Modelled from the spec: the pyplumio combinators `on_change` (fires
when the value differs from the last seen one, and always on the very
first call) and `throttle(seconds)` (lets a call through only when at
least `T` has passed since the last let-through call, with no startup
delay), composed as `throttle(on_change(x), seconds=T)` as in the
`heating_temp` entity description. -/
def throttle_on_change (T : ℚ) (s : ThrottleState) (now v : ℚ) :
    ThrottleState × Option ℚ :=
  let pass :=
    match s.lastCallTime with
    | none => true
    | some t => decide (T ≤ now - t)
  if pass then
    let changed :=
      match s.lastValue with
      | none => true
      | some w => decide (w ≠ v)
    ({ lastValue := some v, lastCallTime := some now },
     if changed then some v else none)
  else (s, none)

/-! ### Meter entity (`sensor.py`, `EcomaxMeter`) -/

/-- Sensor state classes used by the meter entity. -/
inductive StClass where
  | measurement
  | total
  | total_increasing
deriving DecidableEq, Repr

/-- State of an `EcomaxMeter` entity: accumulated native value, last-reset
timestamp, the description's state class, and a count of
`async_write_ha_state` calls (to express frame conditions). -/
structure EcomaxMeter where
  native_value : ℚ
  last_reset : Option ℚ
  state_class : StClass
  writes : Nat
deriving DecidableEq, Repr

/-- `EcomaxMeter.async_reset_meter`: if the state class is TOTAL, record a
new last-reset timestamp; zero the native value; write state. -/
def async_reset_meter (now : ℚ) (s : EcomaxMeter) : EcomaxMeter :=
  let s1 :=
    if s.state_class = StClass.total then { s with last_reset := some now } else s
  { s1 with native_value := 0, writes := s1.writes + 1 }

/-- `EcomaxMeter.async_calibrate_meter`: set the native value directly to
the given value; write state. -/
def async_calibrate_meter (v : ℚ) (s : EcomaxMeter) : EcomaxMeter :=
  { s with native_value := v, writes := s.writes + 1 }

/-- `EcomaxMeter.async_update`: a `None` value is ignored; otherwise the
value is added to the accumulated native value and state is written. -/
def EcomaxMeter.async_update (s : EcomaxMeter) (value : Option ℚ) : EcomaxMeter :=
  match value with
  | none => s
  | some v => { s with native_value := s.native_value + v, writes := s.writes + 1 }

/-- Modelled from the spec: Home Assistant's `cv.positive_float` service
argument validator as used for `calibrate_meter(value: non-negative
float)` — accepts exactly the non-negative numbers. -/
def positive_float (v : ℚ) : Option ℚ :=
  if 0 ≤ v then some v else none

/-- The `SERVICE_CALIBRATE_METER` entity service: validate the argument,
then call `async_calibrate_meter` on the meter. -/
def calibrate_meter_service (v : ℚ) (s : EcomaxMeter) : Option EcomaxMeter :=
  (positive_float v).map fun w => async_calibrate_meter w s

/-! ### Config flow (`config_flow.py`) -/

/-- Modelled from the spec: the external pyplumio `ProductType` enum —
the recognized product classifications, `ECOMAX_P` (raw value 0) and
`ECOMAX_I` (raw value 1). -/
inductive ProductType where
  | ecomax_p
  | ecomax_i
deriving DecidableEq, Repr

/-- Modelled from the spec: `ProductType(product.type)` — recognizes raw
values 0 and 1 and rejects (raises `ValueError` for) everything else. -/
def productTypeOf (n : Nat) : Option ProductType :=
  if n = 0 then some .ecomax_p else if n = 1 then some .ecomax_i else none

/-- Product information reported by the device during identification. -/
structure ProductInfo where
  uid : String
  model : String
  type : Nat
  id : Nat
deriving DecidableEq, Repr

/-- Result of one bounded external operation: a value, or a timeout. -/
inductive Outcome (α : Type) where
  | ok (a : α)
  | timeout
deriving DecidableEq, Repr

/-- Result of opening the connection in `validate_input`. -/
inductive ConnectResult where
  | ok
  | connectFailed
  | timeout
  | otherError
deriving DecidableEq, Repr

/-- The external device/transport as consumed by the wizard: the connect
attempt, the `connection.get(Device.ECOMAX)` wait, the
`device.get(ATTR_PRODUCT)` and `device.get(ATTR_MODULES)` requests, and
the discovered sub-device list. -/
structure Ext where
  connect : ConnectResult
  ecomaxDevice : Outcome Unit
  product : Outcome ProductInfo
  modules : Outcome String
  subDevices : List String
deriving DecidableEq, Repr

/-- Modelled from the spec: `async_get_sub_devices` (declared in
`connection.py` of this repository but absent from the revision under
`src/`) — returns the discovered sub-device identifiers of the device. -/
def async_get_sub_devices (ext : Ext) : List String :=
  ext.subDevices

/-- The accumulated `init_info` mapping of the config flow; dict-update
merging is modelled by field updates. -/
structure InitInfo where
  host : Option String := none
  port : Option Nat := none
  connection_type : Option String := none
  uid : Option String := none
  model : Option String := none
  product_type : Option ProductType := none
  product_id : Option Nat := none
  software : Option String := none
  sub_devices : Option (List String) := none
deriving DecidableEq, Repr

/-- The wizard session state (`ConfigFlow.__init__` fields), plus a fresh
task counter modelling `async_create_task` handles, a closed-connection
flag, and a trace of the step handlers visited. -/
structure ConfigFlow where
  connection : Option Unit := none
  connectionClosed : Bool := false
  identify_task : Option Nat := none
  discover_task : Option Nat := none
  init_info : InitInfo := {}
  unique_id : Option String := none
  nextTask : Nat := 0
  trace : List String := []
deriving DecidableEq, Repr

/-- Results a flow step can return to the flow manager. -/
inductive FlowResult where
  | showForm (stepId : String) (errors : List String)
  | showMenu (stepId : String)
  | showProgress (stepId : String) (task : Nat)
  | showProgressDone (nextStep : String)
  | createEntry (title : String) (data : InitInfo)
  | abort (reason : String)
deriving DecidableEq, Repr

/-- Errors `_async_identify_device` can raise. -/
inductive IdentifyError where
  | timeoutErr
  | unsupportedProduct
deriving DecidableEq, Repr

/-- `ConfigFlow._async_identify_device`: wait for the ecoMAX device, get
its product info, validate the product type, and merge uid, model, product
type and product id into `init_info`. -/
def identify_device (ext : Ext) (info : InitInfo) : Except IdentifyError InitInfo :=
  match ext.ecomaxDevice with
  | .timeout => .error .timeoutErr
  | .ok _ =>
      match ext.product with
      | .timeout => .error .timeoutErr
      | .ok p =>
          match productTypeOf p.type with
          | none => .error .unsupportedProduct
          | some pt =>
              .ok { info with uid := some p.uid, model := some p.model,
                              product_type := some pt, product_id := some p.id }

/-- `ConfigFlow._async_discover_modules`: get the connected modules and the
sub-device list, and merge them into `init_info`. -/
def discover_modules (ext : Ext) (info : InitInfo) : Except Unit InitInfo :=
  match ext.modules with
  | .timeout => .error ()
  | .ok s =>
      .ok { info with software := some s,
                      sub_devices := some (async_get_sub_devices ext) }

/-- `ConfigFlow.async_step_identify`: create the identify task if absent;
while it is not done, show progress with the existing task handle; on
completion clear the task and route on its outcome. `taskDone` models
`self.identify_task.done()`. -/
def async_step_identify (ext : Ext) (taskDone : Bool) (f : ConfigFlow) :
    ConfigFlow × FlowResult :=
  let f0 := { f with trace := f.trace ++ ["identify"] }
  let ft :=
    match f0.identify_task with
    | some t => (f0, t)
    | none =>
        ({ f0 with identify_task := some f0.nextTask, nextTask := f0.nextTask + 1 },
         f0.nextTask)
  let f1 := ft.1
  let t := ft.2
  if taskDone then
    match identify_device ext f1.init_info with
    | .error .timeoutErr =>
        ({ f1 with identify_task := none }, .showProgressDone "device_not_found")
    | .error .unsupportedProduct =>
        ({ f1 with identify_task := none }, .showProgressDone "unsupported_device")
    | .ok info =>
        ({ f1 with identify_task := none, init_info := info },
         .showProgressDone "discover")
  else (f1, .showProgress "identify" t)

/-- `ConfigFlow.async_step_discover`: first set the flow's unique id from
the identified uid and abort if an entry with that unique id is already
configured; then create the discover task if absent, show progress while
it runs, and on completion route on its outcome. -/
def async_step_discover (configured : List String) (ext : Ext) (taskDone : Bool)
    (f : ConfigFlow) : ConfigFlow × FlowResult :=
  let f0 := { f with trace := f.trace ++ ["discover"] }
  let uid := f0.init_info.uid.getD ""
  let fu := { f0 with unique_id := some uid }
  if uid ∈ configured then (fu, .abort "already_configured")
  else
    let ft :=
      match fu.discover_task with
      | some t => (fu, t)
      | none =>
          ({ fu with discover_task := some fu.nextTask, nextTask := fu.nextTask + 1 },
           fu.nextTask)
    let f1 := ft.1
    let t := ft.2
    if taskDone then
      match discover_modules ext f1.init_info with
      | .error _ =>
          ({ f1 with discover_task := none }, .showProgressDone "discovery_failed")
      | .ok info =>
          ({ f1 with discover_task := none, init_info := info },
           .showProgressDone "finish")
    else (f1, .showProgress "discover" t)

/-- `ConfigFlow.async_step_tcp`: without input, show the form; with input,
validate it by opening a connection; on success store the connection, the
connection parameters and the connection type, and proceed directly to the
identify step; map each failure class to a re-shown form with an error. -/
def async_step_tcp (ext : Ext) (taskDone : Bool)
    (userInput : Option (String × Nat)) (f : ConfigFlow) : ConfigFlow × FlowResult :=
  let f0 := { f with trace := f.trace ++ ["tcp"] }
  match userInput with
  | none => (f0, .showForm "tcp" [])
  | some inp =>
      match ext.connect with
      | .ok =>
          let f1 :=
            { f0 with connection := some (),
                      init_info :=
                        { f0.init_info with host := some inp.1, port := some inp.2,
                                            connection_type := some "tcp" } }
          async_step_identify ext taskDone f1
      | .connectFailed => (f0, .showForm "tcp" ["cannot_connect"])
      | .timeout => (f0, .showForm "tcp" ["timeout_connect"])
      | .otherError => (f0, .showForm "tcp" ["unknown"])

/-- `ConfigFlow.async_step_finish`: close the temporary connection if one
is open, then create the entry titled by the model with the merged
`init_info` as its data. -/
def async_step_finish (f : ConfigFlow) : ConfigFlow × FlowResult :=
  let f0 := { f with trace := f.trace ++ ["finish"] }
  let f1 := if f0.connection.isSome then { f0 with connectionClosed := true } else f0
  (f1, .createEntry (f1.init_info.model.getD "") f1.init_info)

/-- `ConfigFlow.async_step_device_not_found`: abort with
`no_devices_found`. -/
def async_step_device_not_found (f : ConfigFlow) : ConfigFlow × FlowResult :=
  ({ f with trace := f.trace ++ ["device_not_found"] }, .abort "no_devices_found")

/-- `ConfigFlow.async_step_unsupported_device`: abort with
`unsupported_device`. -/
def async_step_unsupported_device (f : ConfigFlow) : ConfigFlow × FlowResult :=
  ({ f with trace := f.trace ++ ["unsupported_device"] }, .abort "unsupported_device")

/-- `ConfigFlow.async_step_discovery_failed`: abort with
`discovery_failed`. -/
def async_step_discovery_failed (f : ConfigFlow) : ConfigFlow × FlowResult :=
  ({ f with trace := f.trace ++ ["discovery_failed"] }, .abort "discovery_failed")

/-- Dispatch a flow step by its id, as the flow manager does after a
`showProgressDone` result. -/
def stepByName (configured : List String) (ext : Ext) (taskDone : Bool)
    (name : String) (f : ConfigFlow) : ConfigFlow × FlowResult :=
  if name = "identify" then async_step_identify ext taskDone f
  else if name = "discover" then async_step_discover configured ext taskDone f
  else if name = "finish" then async_step_finish f
  else if name = "device_not_found" then async_step_device_not_found f
  else if name = "unsupported_device" then async_step_unsupported_device f
  else if name = "discovery_failed" then async_step_discovery_failed f
  else (f, .abort "unknown_step")

/-- Follow `showProgressDone` results by invoking the named next step, with
background tasks completing immediately; bounded by fuel. -/
def follow (configured : List String) (ext : Ext) :
    Nat → ConfigFlow × FlowResult → ConfigFlow × FlowResult
  | 0, fr => fr
  | fuel + 1, fr =>
      match fr.2 with
      | .showProgressDone next =>
          follow configured ext fuel (stepByName configured ext true next fr.1)
      | _ => fr

/-- Drive the whole wizard from a submitted TCP form to its terminal
result, with every background task completing immediately. -/
def runWizardTcp (ext : Ext) (configured : List String) (host : String)
    (port : Nat) : ConfigFlow × FlowResult :=
  follow configured ext 4 (async_step_tcp ext true (some (host, port)) {})

/-! ### Integration setup and alert events (`__init__.py`) -/

/-- The retryable error raised out of `async_setup_entry`. -/
inductive HAError where
  | configEntryNotReady (msg : String)
deriving DecidableEq, Repr

/-- `async_setup_entry`: a timeout from `connection.async_setup()` raises
`ConfigEntryNotReady("Device not found")`; otherwise services, events and
platforms are set up and the setup returns `True`. -/
def async_setup_entry (connectionSetup : Outcome Unit) : Except HAError Bool :=
  match connectionSetup with
  | .timeout => .error (.configEntryNotReady "Device not found")
  | .ok _ => .ok true

/-- One device alert, with pre-formatted timestamps. -/
structure Alert where
  code : Nat
  from_dt : String
  to_dt : Option String
deriving DecidableEq, Repr

/-- One `plum_ecomax_alert` event fired on the bus. -/
structure AlertEvent where
  device_id : String
  code : Nat
  from_dt : String
  to_dt : Option String
deriving DecidableEq, Repr

/-- Effects of one alert dispatch: the events fired and whether an error
was logged. -/
structure DispatchOutput where
  events : List AlertEvent
  loggedError : Bool
deriving DecidableEq, Repr

/-- `_displatch_alert_events`: fetching the product info with a timeout
that expires is caught, an error is logged and the handler returns without
firing events or raising; otherwise one event per alert is fired. -/
def displatch_alert_events (productResult : Outcome ProductInfo)
    (deviceId : String) (alerts : List Alert) : Except HAError DispatchOutput :=
  match productResult with
  | .timeout => .ok { events := [], loggedError := true }
  | .ok _ =>
      .ok { events := alerts.map fun a =>
              { device_id := deviceId, code := a.code,
                from_dt := a.from_dt, to_dt := a.to_dt },
            loggedError := false }

/-! ### Concrete example inputs -/

/-- A responsive external device, mirroring the repository's test fixture:
product uid TEST, model ecoMAX 850P2-C, raw type 0, product id 4. -/
def extOk : Ext :=
  { connect := .ok, ecomaxDevice := .ok (),
    product := .ok ⟨"TEST", "ecoMAX 850P2-C", 0, 4⟩,
    modules := .ok "6.10.32.K1", subDevices := ["water_heater"] }

/-- A device that never responds to the identification request. -/
def extTimeout : Ext :=
  { extOk with ecomaxDevice := .timeout }

/-- A device reporting an unrecognized product type (raw value 2). -/
def extUnsupported : Ext :=
  { extOk with product := .ok ⟨"TEST", "ecoMAX 850P2-C", 2, 4⟩ }

/-- A concrete meter entity state: the `fuel_burned` meter (state class
TOTAL) holding an accumulated value. -/
def meterEx : EcomaxMeter :=
  { native_value := 3, last_reset := none, state_class := .total, writes := 0 }

/-- The attach step of the `heating_temp` sensor (filter chain
`throttle(on_change(x), seconds=10)`) on a fresh device with no data. -/
def attachHeatingTemp : Device × EntityState ThrottleState :=
  async_added_to_hass (throttle_on_change 10) id "heating_temp"
    ⟨[], []⟩ (entityInit ⟨none, none⟩)

/-- Attach, detach, then a dispatch of 65 for the `heating_temp` key. -/
def detachScenario : Device × EntityState ThrottleState :=
  Device.dispatch (throttle_on_change 10) id
    (async_will_remove_from_hass "heating_temp" attachHeatingTemp.1)
    0 "heating_temp" 65 attachHeatingTemp.2

/-- Predicate for a subscription that is the availability callback of the
given key. -/
def availSubPred (k : String) (s : Subscription) : Bool :=
  decide (s.key = k) && s.cb.isSetAvailable

/-- Predicate for subscriptions kept by a dispatch on key `k`: everything
except matching one-shot subscriptions. -/
def keepSubPred (k : String) (s : Subscription) : Bool :=
  !(decide (s.key = k) && s.once)

/-- A flow state with both background tasks in flight and an identified
uid, used to instantiate re-entry statements. -/
def flowInFlight : ConfigFlow :=
  { identify_task := some 0, discover_task := some 1,
    init_info := { uid := some "TEST" }, nextTask := 2 }

/-- A flow state that has identified the uid TEST. -/
def flowIdentified : ConfigFlow :=
  { init_info := { uid := some "TEST" } }

/-! ## Helper lemmas -/

theorem invoke_attrAvailable {FS : Type} (φ : FS → ℚ → ℚ → FS × Option ℚ)
    (g : ℚ → ℚ) (cb : Cb) (now v : ℚ) (e : EntityState FS) :
    (invoke φ g cb now v e).attrAvailable = (e.attrAvailable || cb.isSetAvailable) := by
  cases cb
  case update => simp [invoke, Cb.isSetAvailable]
  case setAvailable => simp [invoke, Cb.isSetAvailable]
  case filtered =>
    rcases h : (φ e.fs now v).2 with _ | w <;> simp [invoke, h, Cb.isSetAvailable]

theorem invoke_funcCalls {FS : Type} (φ : FS → ℚ → ℚ → FS × Option ℚ)
    (g : ℚ → ℚ) (cb : Cb) (now v : ℚ) (e : EntityState FS) :
    e.funcCalls <+: (invoke φ g cb now v e).funcCalls := by
  cases cb
  case update => exact List.prefix_rfl
  case setAvailable => exact List.prefix_rfl
  case filtered =>
    rcases h : (φ e.fs now v).2 with _ | w <;>
      · simp only [invoke, h]
        exact List.prefix_append e.funcCalls [v]

theorem dispatchStep_attrAvailable {FS : Type} (φ : FS → ℚ → ℚ → FS × Option ℚ)
    (g : ℚ → ℚ) (k : String) (now v : ℚ)
    (acc : List Subscription × EntityState FS) (s : Subscription) :
    ((dispatchStep φ g k now v acc s).2).attrAvailable
      = (acc.2.attrAvailable || availSubPred k s) := by
  by_cases hk : s.key = k
  · by_cases ho : s.once <;>
      simp [dispatchStep, hk, ho, invoke_attrAvailable, availSubPred]
  · simp [dispatchStep, hk, availSubPred]

theorem dispatchStep_subs {FS : Type} (φ : FS → ℚ → ℚ → FS × Option ℚ)
    (g : ℚ → ℚ) (k : String) (now v : ℚ)
    (acc : List Subscription × EntityState FS) (s : Subscription) :
    (dispatchStep φ g k now v acc s).1
      = acc.1 ++ (if keepSubPred k s then [s] else []) := by
  by_cases hk : s.key = k
  · by_cases ho : s.once <;> simp [dispatchStep, hk, ho, keepSubPred]
  · simp [dispatchStep, hk, keepSubPred]

theorem dispatchStep_funcCalls {FS : Type} (φ : FS → ℚ → ℚ → FS × Option ℚ)
    (g : ℚ → ℚ) (k : String) (now v : ℚ)
    (acc : List Subscription × EntityState FS) (s : Subscription) :
    acc.2.funcCalls <+: ((dispatchStep φ g k now v acc s).2).funcCalls := by
  by_cases hk : s.key = k
  · by_cases ho : s.once <;> simp [dispatchStep, hk, ho, invoke_funcCalls]
  · simp [dispatchStep, hk]

theorem foldl_dispatch_attrAvailable {FS : Type} (φ : FS → ℚ → ℚ → FS × Option ℚ)
    (g : ℚ → ℚ) (k : String) (now v : ℚ) (l : List Subscription) :
    ∀ acc : List Subscription × EntityState FS,
    ((l.foldl (dispatchStep φ g k now v) acc).2).attrAvailable
      = (acc.2.attrAvailable || l.any (availSubPred k)) := by
  induction l with
  | nil => intro acc; simp
  | cons s rest ih =>
      intro acc
      rw [List.foldl_cons, ih, List.any_cons, dispatchStep_attrAvailable,
        Bool.or_assoc]

theorem foldl_dispatch_subs {FS : Type} (φ : FS → ℚ → ℚ → FS × Option ℚ)
    (g : ℚ → ℚ) (k : String) (now v : ℚ) (l : List Subscription) :
    ∀ acc : List Subscription × EntityState FS,
    (l.foldl (dispatchStep φ g k now v) acc).1
      = acc.1 ++ l.filter (keepSubPred k) := by
  induction l with
  | nil => intro acc; simp
  | cons s rest ih =>
      intro acc
      rw [List.foldl_cons, ih, dispatchStep_subs, List.filter_cons]
      by_cases h : keepSubPred k s <;> simp [h]

theorem foldl_dispatch_funcCalls {FS : Type} (φ : FS → ℚ → ℚ → FS × Option ℚ)
    (g : ℚ → ℚ) (k : String) (now v : ℚ) (l : List Subscription) :
    ∀ acc : List Subscription × EntityState FS,
    acc.2.funcCalls <+: ((l.foldl (dispatchStep φ g k now v) acc).2).funcCalls := by
  induction l with
  | nil => intro acc; exact List.prefix_rfl
  | cons s rest ih =>
      intro acc
      rw [List.foldl_cons]
      exact (dispatchStep_funcCalls φ g k now v acc s).trans
        (ih (dispatchStep φ g k now v acc s))

theorem dispatch_attrAvailable {FS : Type} (φ : FS → ℚ → ℚ → FS × Option ℚ)
    (g : ℚ → ℚ) (d : Device) (now : ℚ) (k : String) (v : ℚ) (e : EntityState FS) :
    ((Device.dispatch φ g d now k v e).2).attrAvailable
      = (e.attrAvailable || d.subs.any (availSubPred k)) :=
  foldl_dispatch_attrAvailable φ g k now v d.subs ([], e)

theorem dispatch_subs {FS : Type} (φ : FS → ℚ → ℚ → FS × Option ℚ)
    (g : ℚ → ℚ) (d : Device) (now : ℚ) (k : String) (v : ℚ) (e : EntityState FS) :
    ((Device.dispatch φ g d now k v e).1).subs = d.subs.filter (keepSubPred k) := by
  have h := foldl_dispatch_subs φ g k now v d.subs ([], e)
  simpa [Device.dispatch] using h

theorem dispatch_funcCalls {FS : Type} (φ : FS → ℚ → ℚ → FS × Option ℚ)
    (g : ℚ → ℚ) (d : Device) (now : ℚ) (k : String) (v : ℚ) (e : EntityState FS) :
    e.funcCalls <+: ((Device.dispatch φ g d now k v e).2).funcCalls :=
  foldl_dispatch_funcCalls φ g k now v d.subs ([], e)

theorem runEvents_funcCalls {FS : Type} (φ : FS → ℚ → ℚ → FS × Option ℚ)
    (g : ℚ → ℚ) (evs : List (ℚ × String × ℚ)) :
    ∀ (d : Device) (e : EntityState FS),
    e.funcCalls <+: ((runEvents φ g evs d e).2).funcCalls := by
  induction evs with
  | nil => intro d e; exact List.prefix_rfl
  | cons ev rest ih =>
      intro d e
      exact (dispatch_funcCalls φ g d ev.1 ev.2.1 ev.2.2 e).trans
        (ih _ _)

theorem runEvents_attrAvailable {FS : Type} (φ : FS → ℚ → ℚ → FS × Option ℚ)
    (g : ℚ → ℚ) (key : String) (evs : List (ℚ × String × ℚ)) :
    ∀ (d : Device) (e : EntityState FS),
    (∀ s ∈ d.subs, s.key = key) →
    (e.attrAvailable = false → (⟨key, .setAvailable, true⟩ : Subscription) ∈ d.subs) →
    ((runEvents φ g evs d e).2).attrAvailable
      = (e.attrAvailable || evs.any fun ev => decide (ev.2.1 = key)) := by
  induction evs with
  | nil => intro d e _ _; simp [runEvents]
  | cons ev rest ih =>
      intro d e hkeys havail
      have hA := dispatch_attrAvailable φ g d ev.1 ev.2.1 ev.2.2 e
      have hS := dispatch_subs φ g d ev.1 ev.2.1 ev.2.2 e
      have hkeys' : ∀ s ∈ ((Device.dispatch φ g d ev.1 ev.2.1 ev.2.2 e).1).subs,
          s.key = key := by
        intro s hs
        rw [hS] at hs
        exact hkeys s (List.mem_filter.1 hs).1
      have hEq : (e.attrAvailable || d.subs.any (availSubPred ev.2.1))
          = (e.attrAvailable || decide (ev.2.1 = key)) := by
        cases hav : e.attrAvailable with
        | true => simp
        | false =>
            simp only [Bool.false_or]
            by_cases hk : ev.2.1 = key
            · rw [hk]
              have hp : availSubPred key ⟨key, .setAvailable, true⟩ = true := by
                simp [availSubPred, Cb.isSetAvailable]
              have hany := List.any_eq_true.2 ⟨_, havail hav, hp⟩
              simp [hany]
            · have hk' : ¬ key = ev.2.1 := fun h => hk h.symm
              have hnone : d.subs.any (availSubPred ev.2.1) = false := by
                rw [List.any_eq_false]
                intro s hs
                have hkey := hkeys s hs
                simp [availSubPred, hkey, hk']
              simp [hnone, hk]
      have havail' : ((Device.dispatch φ g d ev.1 ev.2.1 ev.2.2 e).2).attrAvailable
            = false →
          (⟨key, .setAvailable, true⟩ : Subscription) ∈
            ((Device.dispatch φ g d ev.1 ev.2.1 ev.2.2 e).1).subs := by
        intro h0
        rw [hA] at h0
        have he : e.attrAvailable = false := by
          cases hav : e.attrAvailable
          · rfl
          · rw [hav] at h0; simp at h0
        have hany : d.subs.any (availSubPred ev.2.1) = false := by
          rw [he] at h0; simpa using h0
        have hk : ev.2.1 ≠ key := by
          intro hk
          have hmem := havail he
          have hp : availSubPred ev.2.1 ⟨key, .setAvailable, true⟩ = true := by
            simp [availSubPred, Cb.isSetAvailable, hk]
          have := List.any_eq_true.2 ⟨_, hmem, hp⟩
          rw [hany] at this
          exact Bool.false_ne_true this
        rw [hS]
        refine List.mem_filter.2 ⟨havail he, ?_⟩
        have hk' : ¬ key = ev.2.1 := fun h => hk h.symm
        simp [keepSubPred, hk']
      have hstep := ih ((Device.dispatch φ g d ev.1 ev.2.1 ev.2.2 e).1)
        ((Device.dispatch φ g d ev.1 ev.2.1 ev.2.2 e).2) hkeys' havail'
      calc ((runEvents φ g (ev :: rest) d e).2).attrAvailable
          = ((runEvents φ g rest (Device.dispatch φ g d ev.1 ev.2.1 ev.2.2 e).1
              (Device.dispatch φ g d ev.1 ev.2.1 ev.2.2 e).2).2).attrAvailable := rfl
        _ = (((Device.dispatch φ g d ev.1 ev.2.1 ev.2.2 e).2).attrAvailable
              || rest.any fun x => decide (x.2.1 = key)) := hstep
        _ = ((e.attrAvailable || d.subs.any (availSubPred ev.2.1))
              || rest.any fun x => decide (x.2.1 = key)) := by rw [hA]
        _ = ((e.attrAvailable || decide (ev.2.1 = key))
              || rest.any fun x => decide (x.2.1 = key)) := by rw [hEq]
        _ = (e.attrAvailable || ((ev :: rest).any fun x => decide (x.2.1 = key))) := by
              rw [List.any_cons, Bool.or_assoc]

theorem async_step_identify_done (ext : Ext) (f : ConfigFlow) :
    (async_step_identify ext true f).2 =
      (match identify_device ext f.init_info with
       | .error .timeoutErr => .showProgressDone "device_not_found"
       | .error .unsupportedProduct => .showProgressDone "unsupported_device"
       | .ok _ => .showProgressDone "discover")
    ∧ (async_step_identify ext true f).1.init_info =
      (match identify_device ext f.init_info with
       | .error _ => f.init_info
       | .ok info => info)
    ∧ (async_step_identify ext true f).1.identify_task = none := by
  rcases hti : f.identify_task with _ | t <;>
    rcases hid : identify_device ext f.init_info with e | info <;>
    first
      | (rcases e <;> simp [async_step_identify, hti, hid])
      | simp [async_step_identify, hti, hid]

/-! ## Claim theorems -/

/-- Claim C1 (code bug evaluated at the failing input): after
`async_will_remove_from_hass`, a dispatch on the entity's key still
invokes the entity's update callback — the detach removed nothing, since
it unsubscribes the raw `async_update` while `async_added_to_hass`
registered the filter-wrapped callback. -/
theorem detach_leaves_filtered_callback_subscribed :
    (async_will_remove_from_hass "heating_temp" attachHeatingTemp.1).subs
        = attachHeatingTemp.1.subs
    ∧ detachScenario.2.updateCalls = [65] := by decide

/-- Claim C10: `EcomaxMeter.async_update` with `None` leaves the meter
state completely unchanged and performs no state write, while a value `v`
increases the accumulated native value by exactly `v` (addition, not
replacement) and leaves the other fields unchanged. -/
theorem meter_update_accumulates_or_ignores_none (s : EcomaxMeter) (v : ℚ) :
    s.async_update none = s
    ∧ (s.async_update (some v)).native_value = s.native_value + v
    ∧ (s.async_update (some v)).last_reset = s.last_reset
    ∧ (s.async_update (some v)).state_class = s.state_class
    ∧ (s.async_update (some v)).writes = s.writes + 1 :=
  ⟨rfl, rfl, rfl, rfl, rfl⟩

/-- Claim C9: `async_reset_meter` zeroes the accumulated native value and
records a new last-reset timestamp exactly when the state class is TOTAL;
the calibrate service validates its argument as a non-negative float and
sets the native value directly to the given value. -/
theorem meter_reset_and_calibrate_commands (s : EcomaxMeter) (now v : ℚ) :
    (async_reset_meter now s).native_value = 0
    ∧ (s.state_class = StClass.total →
        (async_reset_meter now s).last_reset = some now)
    ∧ (s.state_class ≠ StClass.total →
        (async_reset_meter now s).last_reset = s.last_reset)
    ∧ (0 ≤ v → calibrate_meter_service v s = some (async_calibrate_meter v s))
    ∧ (v < 0 → calibrate_meter_service v s = none)
    ∧ (async_calibrate_meter v s).native_value = v
    ∧ (async_calibrate_meter v s).last_reset = s.last_reset := by
  refine ⟨?_, ?_, ?_, ?_, ?_, rfl, rfl⟩
  · by_cases h : s.state_class = StClass.total <;> simp [async_reset_meter, h]
  · intro h; simp [async_reset_meter, h]
  · intro h; simp [async_reset_meter, h]
  · intro h; simp [calibrate_meter_service, positive_float, h]
  · intro h; simp [calibrate_meter_service, positive_float, not_le.2 h]

/-- Witness for C9 at the concrete `fuel_burned` meter (state class
TOTAL), reset at time 5 and calibrated to 2. -/
theorem meter_reset_and_calibrate_commands_witness :
    meterEx.state_class = StClass.total
    ∧ (0 : ℚ) ≤ 2
    ∧ (async_reset_meter 5 meterEx).native_value = 0
    ∧ (async_reset_meter 5 meterEx).last_reset = some 5
    ∧ calibrate_meter_service 2 meterEx = some (async_calibrate_meter 2 meterEx)
    ∧ (async_calibrate_meter 2 meterEx).native_value = 2 := by
  have h := meter_reset_and_calibrate_commands meterEx 5 2
  exact ⟨rfl, by norm_num, h.1, h.2.1 rfl, h.2.2.2.1 (by norm_num),
    h.2.2.2.2.2.1⟩

/-- Claim C7: a timeout of `connection.async_setup()` during
`async_setup_entry` raises the retryable `ConfigEntryNotReady`, whereas a
timeout while fetching product info in the alert-event dispatcher is
caught and logged and the alerts are dropped without raising. -/
theorem setup_timeout_raises_not_ready_alert_timeout_dropped
    (deviceId : String) (alerts : List Alert) :
    async_setup_entry Outcome.timeout
        = .error (.configEntryNotReady "Device not found")
    ∧ displatch_alert_events Outcome.timeout deviceId alerts
        = .ok { events := [], loggedError := true } :=
  ⟨rfl, rfl⟩

/-- Claim C3 (evaluated at the failing input): driving the wizard with
valid TCP parameters against a responsive device visits exactly the steps
tcp, identify, discover, finish — there is no device-wait step — and the
finish step closes the temporary connection and creates an entry whose
data is the merged record of connection parameters and discovered
identity fields. -/
theorem tcp_wizard_run_has_no_device_wait_step :
    (runWizardTcp extOk [] "localhost" 8899).1.trace
        = ["tcp", "identify", "discover", "finish"]
    ∧ (runWizardTcp extOk [] "localhost" 8899).1.trace.contains "device_wait" = false
    ∧ (runWizardTcp extOk [] "localhost" 8899).1.connectionClosed = true
    ∧ (runWizardTcp extOk [] "localhost" 8899).2
        = .createEntry "ecoMAX 850P2-C"
            { host := some "localhost", port := some 8899,
              connection_type := some "tcp", uid := some "TEST",
              model := some "ecoMAX 850P2-C", product_type := some .ecomax_p,
              product_id := some 4, software := some "6.10.32.K1",
              sub_devices := some ["water_heater"] } := by decide

/-- Claim C4: when the identify task is done, the step never stays
pending: a timeout routes to the `device_not_found` step (which aborts
with `no_devices_found`), an unrecognized product type routes to
`unsupported_device`, and success merges uid, model, product type and
product id into `init_info` and routes to `discover`. -/
theorem identify_completion_routes_to_one_of_three_outcomes
    (ext : Ext) (f : ConfigFlow) :
    ((ext.ecomaxDevice = Outcome.timeout ∨ ext.product = Outcome.timeout) →
        (async_step_identify ext true f).2 = .showProgressDone "device_not_found"
        ∧ (async_step_device_not_found (async_step_identify ext true f).1).2
            = .abort "no_devices_found")
    ∧ (∀ p : ProductInfo, ext.ecomaxDevice = .ok () → ext.product = .ok p →
        productTypeOf p.type = none →
        (async_step_identify ext true f).2 = .showProgressDone "unsupported_device"
        ∧ (async_step_unsupported_device (async_step_identify ext true f).1).2
            = .abort "unsupported_device")
    ∧ (∀ (p : ProductInfo) (pt : ProductType),
        ext.ecomaxDevice = .ok () → ext.product = .ok p →
        productTypeOf p.type = some pt →
        (async_step_identify ext true f).2 = .showProgressDone "discover"
        ∧ (async_step_identify ext true f).1.init_info
            = { f.init_info with
                uid := some p.uid
                model := some p.model
                product_type := some pt
                product_id := some p.id }
        ∧ (async_step_identify ext true f).1.identify_task = none)
    ∧ (∃ next, (async_step_identify ext true f).2 = .showProgressDone next) := by
  obtain ⟨hres, hinfo, htask⟩ := async_step_identify_done ext f
  refine ⟨?_, ?_, ?_, ?_⟩
  · intro h
    have hto : identify_device ext f.init_info = .error .timeoutErr := by
      rcases h with h | h
      · simp [identify_device, h]
      · rcases he : ext.ecomaxDevice with _ | _ <;> simp [identify_device, he, h]
    rw [hto] at hres
    exact ⟨hres, rfl⟩
  · intro p he hp hpt
    have hun : identify_device ext f.init_info = .error .unsupportedProduct := by
      simp [identify_device, he, hp, hpt]
    rw [hun] at hres
    exact ⟨hres, rfl⟩
  · intro p pt he hp hpt
    have hok : identify_device ext f.init_info
        = .ok { f.init_info with
                uid := some p.uid
                model := some p.model
                product_type := some pt
                product_id := some p.id } := by
      simp [identify_device, he, hp, hpt]
    rw [hok] at hres hinfo
    exact ⟨hres, hinfo, htask⟩
  · rcases hid : identify_device ext f.init_info with err | info
    · rcases err <;> rw [hid] at hres <;> exact ⟨_, hres⟩
    · rw [hid] at hres; exact ⟨_, hres⟩

/-- Witness for C4: the timeout device routes to `device_not_found` and
the device reporting raw product type 2 routes to `unsupported_device`. -/
theorem identify_completion_routes_witness :
    (extTimeout.ecomaxDevice = Outcome.timeout ∨ extTimeout.product = Outcome.timeout)
    ∧ (async_step_identify extTimeout true {}).2
        = .showProgressDone "device_not_found"
    ∧ (extUnsupported.ecomaxDevice = .ok () ∧ productTypeOf 2 = none)
    ∧ (async_step_identify extUnsupported true {}).2
        = .showProgressDone "unsupported_device" := by
  refine ⟨Or.inl rfl, ?_, ⟨rfl, rfl⟩, ?_⟩
  · exact ((identify_completion_routes_to_one_of_three_outcomes extTimeout {}).1
      (Or.inl rfl)).1
  · exact (((identify_completion_routes_to_one_of_three_outcomes extUnsupported
      {}).2.1) ⟨"TEST", "ecoMAX 850P2-C", 2, 4⟩ rfl rfl rfl).1

/-- Claim C5: re-entering the identify or discover step while its
background task is in flight keeps the existing task handle, creates no
second task, and returns a progress indication. -/
theorem reentering_inflight_step_keeps_task
    (ext : Ext) (configured : List String) (f : ConfigFlow) (t u : Nat)
    (hid : f.identify_task = some t) (hdis : f.discover_task = some u)
    (huid : f.init_info.uid.getD "" ∉ configured) :
    ((async_step_identify ext false f).2 = .showProgress "identify" t
      ∧ (async_step_identify ext false f).1.identify_task = some t
      ∧ (async_step_identify ext false f).1.nextTask = f.nextTask)
    ∧ ((async_step_discover configured ext false f).2 = .showProgress "discover" u
      ∧ (async_step_discover configured ext false f).1.discover_task = some u
      ∧ (async_step_discover configured ext false f).1.nextTask = f.nextTask) := by
  constructor
  · simp [async_step_identify, hid]
  · simp [async_step_discover, hdis, huid]

/-- Witness for C5 at a flow with both tasks in flight. -/
theorem reentering_inflight_step_keeps_task_witness :
    flowInFlight.identify_task = some 0
    ∧ flowInFlight.discover_task = some 1
    ∧ flowInFlight.init_info.uid.getD "" ∉ ([] : List String)
    ∧ (async_step_identify extOk false flowInFlight).2 = .showProgress "identify" 0
    ∧ (async_step_discover [] extOk false flowInFlight).2
        = .showProgress "discover" 1
    ∧ (async_step_identify extOk false flowInFlight).1.nextTask
        = flowInFlight.nextTask := by
  have h := reentering_inflight_step_keeps_task extOk [] flowInFlight 0 1 rfl rfl
    (by simp)
  exact ⟨rfl, rfl, by simp, h.1.1, h.2.1, h.1.2.2⟩

/-- Claim C6: on entry the discover step sets the flow's unique id to the
identified device uid and, if an entry with that unique id is already
configured, aborts the whole flow without creating the discovery task. -/
theorem discover_aborts_on_duplicate_unique_id
    (ext : Ext) (configured : List String) (taskDone : Bool) (f : ConfigFlow)
    (u : String) (hu : f.init_info.uid = some u) (hmem : u ∈ configured) :
    (async_step_discover configured ext taskDone f).2 = .abort "already_configured"
    ∧ (async_step_discover configured ext taskDone f).1.unique_id = some u
    ∧ (async_step_discover configured ext taskDone f).1.discover_task
        = f.discover_task
    ∧ (async_step_discover configured ext taskDone f).1.nextTask = f.nextTask := by
  simp [async_step_discover, hu, hmem]

/-- Witness for C6: a flow identified as uid TEST against a configured
entry with unique id TEST. -/
theorem discover_aborts_on_duplicate_unique_id_witness :
    flowIdentified.init_info.uid = some "TEST"
    ∧ "TEST" ∈ ["TEST"]
    ∧ (async_step_discover ["TEST"] extOk true flowIdentified).2
        = .abort "already_configured"
    ∧ (async_step_discover ["TEST"] extOk true flowIdentified).1.discover_task
        = flowIdentified.discover_task := by
  have h := discover_aborts_on_duplicate_unique_id extOk ["TEST"] true
    flowIdentified "TEST" rfl (by simp)
  exact ⟨rfl, by simp, h.1, h.2.2.1⟩

/-- Claim C2: for any entity (any filter chain and value function) whose
key already has a value when `async_added_to_hass` runs, that value is the
first and only value delivered to the filter-wrapped callback before
attach returns, the availability callback has been invoked, and after any
sequence of subsequently dispatched values the initial value is still the
first delivery. -/
theorem attached_entity_receives_initial_value_first {FS : Type}
    (φ : FS → ℚ → ℚ → FS × Option ℚ) (g : ℚ → ℚ) (fs0 : FS)
    (data : List (String × ℚ)) (key : String) (v : ℚ)
    (h : lookupKey data key = some v) :
    (async_added_to_hass φ g key ⟨data, []⟩ (entityInit fs0)).2.funcCalls = [v]
    ∧ (async_added_to_hass φ g key ⟨data, []⟩ (entityInit fs0)).2.attrAvailable
        = true
    ∧ ∀ events : List (ℚ × String × ℚ), ∃ rest,
        ((runEvents φ g events
            (async_added_to_hass φ g key ⟨data, []⟩ (entityInit fs0)).1
            (async_added_to_hass φ g key ⟨data, []⟩ (entityInit fs0)).2).2).funcCalls
          = v :: rest := by
  have hfunc : (async_added_to_hass φ g key (⟨data, []⟩ : Device)
      (entityInit fs0)).2.funcCalls = [v] := by
    rcases hout : (φ fs0 0 v).2 with _ | w <;>
      simp [async_added_to_hass, Device.subscribe, Device.subscribe_once, h,
        invoke, entityInit, hout]
  have hattr : (async_added_to_hass φ g key (⟨data, []⟩ : Device)
      (entityInit fs0)).2.attrAvailable = true := by
    simp [async_added_to_hass, Device.subscribe, Device.subscribe_once, h,
      invoke_attrAvailable, Cb.isSetAvailable]
  refine ⟨hfunc, hattr, ?_⟩
  intro events
  have hpre := runEvents_funcCalls φ g events
    (async_added_to_hass φ g key ⟨data, []⟩ (entityInit fs0)).1
    (async_added_to_hass φ g key ⟨data, []⟩ (entityInit fs0)).2
  rw [hfunc] at hpre
  obtain ⟨t, ht⟩ := hpre
  refine ⟨t, ?_⟩
  rw [← ht, List.singleton_append]

/-- Witness for C2: the heating_temp entity with its
`throttle(on_change(x), seconds=10)` filter chain attaching on a device
that already reports heating_temp = 65. -/
theorem attached_entity_receives_initial_value_first_witness :
    lookupKey [("heating_temp", (65 : ℚ))] "heating_temp" = some 65
    ∧ ((async_added_to_hass (throttle_on_change 10) id "heating_temp"
          ⟨[("heating_temp", 65)], []⟩
          (entityInit (⟨none, none⟩ : ThrottleState))).2.funcCalls = [65]
      ∧ (async_added_to_hass (throttle_on_change 10) id "heating_temp"
          ⟨[("heating_temp", 65)], []⟩
          (entityInit (⟨none, none⟩ : ThrottleState))).2.attrAvailable = true
      ∧ ∀ events : List (ℚ × String × ℚ), ∃ rest,
          ((runEvents (throttle_on_change 10) id events
              (async_added_to_hass (throttle_on_change 10) id "heating_temp"
                ⟨[("heating_temp", 65)], []⟩
                (entityInit (⟨none, none⟩ : ThrottleState))).1
              (async_added_to_hass (throttle_on_change 10) id "heating_temp"
                ⟨[("heating_temp", 65)], []⟩
                (entityInit (⟨none, none⟩ : ThrottleState))).2).2).funcCalls
            = 65 :: rest) :=
  ⟨by decide,
   attached_entity_receives_initial_value_first (throttle_on_change 10) id
     ⟨none, none⟩ [("heating_temp", 65)] "heating_temp" 65 (by decide)⟩

/-- Claim C8: for any entity, after attach and any sequence of dispatched
events, the `available` property is true exactly when the connection is
established and at least one value for the entity's key has been observed
since attach — either present at attach time (initial replay) or
dispatched afterwards. -/
theorem available_iff_connected_and_value_seen {FS : Type}
    (φ : FS → ℚ → ℚ → FS × Option ℚ) (g : ℚ → ℚ) (fs0 : FS)
    (data : List (String × ℚ)) (key : String) (connected : Bool)
    (events : List (ℚ × String × ℚ)) :
    available connected
        ((runEvents φ g events
            (async_added_to_hass φ g key ⟨data, []⟩ (entityInit fs0)).1
            (async_added_to_hass φ g key ⟨data, []⟩ (entityInit fs0)).2).2)
      = (connected &&
          ((lookupKey data key).isSome
            || events.any fun ev => decide (ev.2.1 = key))) := by
  have hsubs : (async_added_to_hass φ g key (⟨data, []⟩ : Device)
      (entityInit fs0)).1.subs
      = [⟨key, .setAvailable, true⟩, ⟨key, .filtered, false⟩] := by
    rcases hv : lookupKey data key with _ | v <;>
      simp [async_added_to_hass, Device.subscribe, Device.subscribe_once, hv]
  have hkeys : ∀ s ∈ (async_added_to_hass φ g key (⟨data, []⟩ : Device)
      (entityInit fs0)).1.subs, s.key = key := by
    rw [hsubs]
    intro s hs
    simp only [List.mem_cons, List.not_mem_nil, or_false] at hs
    rcases hs with rfl | rfl <;> rfl
  rcases hv : lookupKey data key with _ | v
  · have hattr : (async_added_to_hass φ g key (⟨data, []⟩ : Device)
        (entityInit fs0)).2.attrAvailable = false := by
      simp [async_added_to_hass, Device.subscribe, Device.subscribe_once, hv,
        entityInit]
    have hmem : (⟨key, .setAvailable, true⟩ : Subscription) ∈
        (async_added_to_hass φ g key (⟨data, []⟩ : Device)
          (entityInit fs0)).1.subs := by
      rw [hsubs]; exact List.mem_cons_self _ _
    have hrun := runEvents_attrAvailable φ g key events
      (async_added_to_hass φ g key ⟨data, []⟩ (entityInit fs0)).1
      (async_added_to_hass φ g key ⟨data, []⟩ (entityInit fs0)).2
      hkeys fun _ => hmem
    simp [available, hrun, hattr]
  · have hattr : (async_added_to_hass φ g key (⟨data, []⟩ : Device)
        (entityInit fs0)).2.attrAvailable = true := by
      simp [async_added_to_hass, Device.subscribe, Device.subscribe_once, hv,
        invoke_attrAvailable, Cb.isSetAvailable]
    have hrun := runEvents_attrAvailable φ g key events
      (async_added_to_hass φ g key ⟨data, []⟩ (entityInit fs0)).1
      (async_added_to_hass φ g key ⟨data, []⟩ (entityInit fs0)).2
      hkeys fun h0 => Bool.noConfusion (hattr.symm.trans h0)
    simp [available, hrun, hattr]

end PlumEcomax
